import Mathlib

/-!
# Verification of the flowy SWF decision engine against its specification

Shallow embedding of `src/flowy/backend/swf.py` (the decision engine: event
projection, decision context, proxies, paging, registration, worker helpers)
and of the codec helpers of `src/flowy/swf.py` (`_str_concat` /
`_str_deconcat`).  Python strings are modelled as Lean `String` (a list of
characters; Python 2 `str` length and slicing coincide with character
counts), Python `dict`s as association lists with overwrite-on-insert,
Python `set`s as duplicate-free lists, and raising code as `Except` /
`Option` results.
-/

/-! ## Size limits (src/flowy/backend/swf.py lines 31-33) -/

def _INPUT_SIZE : Nat := 32768

def _RESULT_SIZE : Nat := 32768

def _IDENTITY_SIZE : Nat := 256

def _REASON_SIZE : Nat := 256

/-- Python `s[:n]` on a string: keep the first `n` characters. -/
def py_slice_front (n : Nat) (s : String) : String := ⟨s.data.take n⟩

/-- Python `s[-n:]` on a string (for `n > 0`): keep the last `n` characters;
the whole string when it is shorter. -/
def py_slice_last (n : Nat) (s : String) : String := ⟨s.data.drop (s.data.length - n)⟩

/-! ## Python `str.split` with a one-character separator

`s.split(sep)` splits on every occurrence of `sep`; the result is never the
empty list (`''.split('-') == ['']`).  Used by `_subworkflow_call_key`
(`subworkflow_key.split('-')[-1]`, src/flowy/backend/swf.py line 744). -/

def pySplit (sep : Char) : List Char → List (List Char)
  | [] => [[]]
  | c :: cs =>
    if c = sep then [] :: pySplit sep cs
    else
      match pySplit sep cs with
      | [] => [[c]]
      | p :: ps => (c :: p) :: ps

/-- Python `s.split(sep, 1)` restricted to what `_str_deconcat` needs: split at
the first occurrence of `sep`, or `none` when `sep` does not occur (in which
case the Python two-target unpacking raises `ValueError`). -/
def pySplitOnce (sep : Char) : List Char → Option (List Char × List Char)
  | [] => none
  | c :: cs =>
    if c = sep then some ([], cs)
    else (pySplitOnce sep cs).map (fun p => (c :: p.1, p.2))

/-! ## Call-key namespaces (src/flowy/backend/swf.py lines 730-744) -/

/-- `_timer_key`: `'%s:t' % call_key`. -/
def _timer_key (call_key : String) : String := call_key ++ ":t"

/-- `_subworkflow_key`: `'%s-%s' % (uuid.uuid4(), call_key)`.  The fresh
uuid is modelled as an explicit string argument `u`. -/
def _subworkflow_key (u : String) (call_key : String) : String :=
  u ++ "-" ++ call_key

/-- `_subworkflow_call_key`: `subworkflow_key.split('-')[-1]`. -/
def _subworkflow_call_key (subworkflow_key : String) : String :=
  ⟨(pySplit '-' subworkflow_key.data).getLastD []⟩

/-! ## Decimal rendering and parsing

`_str_concat` renders `len(str1)` with `%d`; `_str_deconcat` reads it back
with `int(...)`.  `natReprAux` is fuel-based structural recursion so that
concrete instances reduce in the kernel. -/

def digitChar (d : Nat) : Char :=
  match d with
  | 0 => '0' | 1 => '1' | 2 => '2' | 3 => '3' | 4 => '4'
  | 5 => '5' | 6 => '6' | 7 => '7' | 8 => '8' | _ => '9'

def digitVal (c : Char) : Nat := c.toNat - 48

def natReprAux : Nat → Nat → List Char
  | 0, _ => []
  | _, 0 => []
  | fuel + 1, n => natReprAux fuel (n / 10) ++ [digitChar (n % 10)]

/-- Decimal rendering of a natural number, as Python `'%d' % n`. -/
def natRepr (n : Nat) : String :=
  if n = 0 then "0" else ⟨natReprAux n n⟩

/-- Python `int(s)` restricted to the non-empty all-digit strings that occur
as the length prefix of `_str_concat` output; other strings fail (Python
raises `ValueError`; `int` also accepts signs and whitespace, which never
occur on the inputs considered here). -/
def parseDecimal (l : List Char) : Option Nat :=
  if l ≠ [] ∧ l.all Char.isDigit then
    some (l.foldl (fun acc c => 10 * acc + digitVal c) 0)
  else none

/-! ## Decider context blob codec (src/flowy/swf.py lines 1038-1051) -/

/-- `_str_concat(str1, str2=None)`: `'%d %s' % (len(str1), str1)` with
`str2` appended when present. -/
def _str_concat (str1 : String) (str2 : Option String) : String :=
  match str2 with
  | none => natRepr str1.length ++ " " ++ str1
  | some s2 => natRepr str1.length ++ " " ++ str1 ++ s2

/-- `_str_deconcat(s)`: split at the first space, parse the length, slice,
and collapse an empty tail to `None`.  A missing space or an unparsable
length raises (`ValueError`), modelled as `Except.error`. -/
def _str_deconcat (s : String) : Except Unit (String × Option String) :=
  match pySplitOnce ' ' s.data with
  | none => .error ()
  | some (pre, rest) =>
    match parseDecimal pre with
    | none => .error ()
    | some n =>
      let str1 : List Char := rest.take n
      let str2 : List Char := rest.drop n
      .ok (⟨str1⟩, if str2 = [] then none else some ⟨str2⟩)

/-! ## Python container primitives used by `parse_events`

`set.add` / `set.remove` on duplicate-free lists, and `dict` assignment on
association lists (overwrite in place, otherwise append).  `set.remove` and
`dict[...]` lookup raise `KeyError` on a missing key, modelled as `none`. -/

/-- Python `set.add`. -/
def sadd (k : String) (s : List String) : List String :=
  if k ∈ s then s else s ++ [k]

/-- Python `set.remove`: `none` models the `KeyError` on a missing element. -/
def sremove (k : String) (s : List String) : Option (List String) :=
  if k ∈ s then some (s.filter (fun x => x ≠ k)) else none

/-- Python `d[k] = v` on a dict represented as an association list. -/
def dict_insert {κ σ : Type} [DecidableEq κ] (k : κ) (v : σ)
    (d : List (κ × σ)) : List (κ × σ) :=
  if k ∈ d.map Prod.fst then d.map (fun p => if p.1 = k then (k, v) else p)
  else d ++ [(k, v)]

/-- Python `d[k]` lookup: `none` models the `KeyError`. -/
def dict_get {κ σ : Type} [DecidableEq κ] (d : List (κ × σ)) (k : κ) : Option σ :=
  (d.find? (fun p => p.1 = k)).map Prod.snd

/-- The keys of a dict. -/
def dkeys {κ σ : Type} (d : List (κ × σ)) : List κ := d.map Prod.fst

/-! ## Event model (the history events `parse_events` consumes)

One constructor per `eventType` branch of `parse_events`
(src/flowy/backend/swf.py lines 438-517); `other` stands for the event
types the fold drops silently. -/

inductive SWFEvent : Type
  | activityTaskScheduled (eventId : Nat) (activityId : String)
  | activityTaskCompleted (scheduledEventId : Nat) (result : String)
  | activityTaskFailed (scheduledEventId : Nat) (reason : String)
  | activityTaskTimedOut (scheduledEventId : Nat)
  | scheduleActivityTaskFailed (activityId : String) (cause : String)
  | startChildWorkflowExecutionInitiated (workflowId : String)
  | childWorkflowExecutionCompleted (workflowId : String) (result : String)
  | childWorkflowExecutionFailed (workflowId : String) (reason : String)
  | childWorkflowExecutionTimedOut (workflowId : String)
  | startChildWorkflowExecutionFailed (workflowId : String) (cause : String)
  | timerStarted (timerId : String)
  | timerFired (timerId : String)
  | other
  deriving DecidableEq

/-- The state accumulated by `parse_events`.  The source returns the tuple
`(running, timedout, results, errors, order)`; `event2call` is the local
dict resolving `scheduledEventId`s. -/
structure ParseState : Type where
  running : List String
  timedout : List String
  results : List (String × String)
  errors : List (String × String)
  order : List String
  event2call : List (Nat × String)
  deriving DecidableEq

/-- Exceptions escaping `parse_events`: `KeyError` from `event2call[...]` or
`set.remove`, and the `NameError` raised by `_timer_call_key`, whose body
reads `timer_id` while its parameter is named `timer_key`
(src/flowy/backend/swf.py lines 734-736). -/
inductive ParseErr : Type
  | keyError
  | nameError
  deriving DecidableEq

/-- One iteration of the `parse_events` loop. -/
def parse_step (st : ParseState) (e : SWFEvent) : Except ParseErr ParseState :=
  match e with
  | .activityTaskScheduled eventId activityId =>
    .ok { st with event2call := dict_insert eventId activityId st.event2call,
                  running := sadd activityId st.running }
  | .activityTaskCompleted scheduledEventId result =>
    match dict_get st.event2call scheduledEventId with
    | none => .error .keyError
    | some id =>
      match sremove id st.running with
      | none => .error .keyError
      | some r => .ok { st with running := r,
                                results := dict_insert id result st.results,
                                order := st.order ++ [id] }
  | .activityTaskFailed scheduledEventId reason =>
    match dict_get st.event2call scheduledEventId with
    | none => .error .keyError
    | some id =>
      match sremove id st.running with
      | none => .error .keyError
      | some r => .ok { st with running := r,
                                errors := dict_insert id reason st.errors,
                                order := st.order ++ [id] }
  | .activityTaskTimedOut scheduledEventId =>
    match dict_get st.event2call scheduledEventId with
    | none => .error .keyError
    | some id =>
      match sremove id st.running with
      | none => .error .keyError
      | some r => .ok { st with running := r,
                                timedout := sadd id st.timedout,
                                order := st.order ++ [id] }
  | .scheduleActivityTaskFailed activityId cause =>
    -- "when a job is not found it's not even started": no `running` removal
    .ok { st with errors := dict_insert activityId cause st.errors,
                  order := st.order ++ [activityId] }
  | .startChildWorkflowExecutionInitiated workflowId =>
    .ok { st with running := sadd (_subworkflow_call_key workflowId) st.running }
  | .childWorkflowExecutionCompleted workflowId result =>
    match sremove (_subworkflow_call_key workflowId) st.running with
    | none => .error .keyError
    | some r => .ok { st with running := r,
                              results := dict_insert (_subworkflow_call_key workflowId)
                                result st.results,
                              order := st.order ++ [_subworkflow_call_key workflowId] }
  | .childWorkflowExecutionFailed workflowId reason =>
    match sremove (_subworkflow_call_key workflowId) st.running with
    | none => .error .keyError
    | some r => .ok { st with running := r,
                              errors := dict_insert (_subworkflow_call_key workflowId)
                                reason st.errors,
                              order := st.order ++ [_subworkflow_call_key workflowId] }
  | .childWorkflowExecutionTimedOut workflowId =>
    match sremove (_subworkflow_call_key workflowId) st.running with
    | none => .error .keyError
    | some r => .ok { st with running := r,
                              timedout := sadd (_subworkflow_call_key workflowId) st.timedout,
                              order := st.order ++ [_subworkflow_call_key workflowId] }
  | .startChildWorkflowExecutionFailed workflowId cause =>
    .ok { st with errors := dict_insert (_subworkflow_call_key workflowId) cause st.errors,
                  order := st.order ++ [_subworkflow_call_key workflowId] }
  | .timerStarted _ =>
    -- `running.add(_timer_call_key(id))`: `_timer_call_key` raises NameError
    -- (its body reads the unbound name `timer_id`)
    .error .nameError
  | .timerFired _ =>
    -- `running.remove(_timer_call_key(id))`: same NameError; the subsequent
    -- `results[id] = None` line is unreachable
    .error .nameError
  | .other => .ok st

/-- The `for e in events` loop of `parse_events`. -/
def parseGo : ParseState → List SWFEvent → Except ParseErr ParseState
  | st, [] => .ok st
  | st, e :: es =>
    match parse_step st e with
    | .error x => .error x
    | .ok st' => parseGo st' es

/-- `parse_events` (src/flowy/backend/swf.py lines 438-517): fold the event
history into the decision state, starting from empty containers. -/
def parse_events (events : List SWFEvent) : Except ParseErr ParseState :=
  parseGo ⟨[], [], [], [], [], []⟩ events

/-! ## Membership lemmas for the container primitives -/

theorem mem_sadd {k a : String} {s : List String} :
    k ∈ sadd a s ↔ k = a ∨ k ∈ s := by
  unfold sadd
  split
  · constructor
    · exact Or.inr
    · rintro (rfl | h) <;> assumption
  · simp [or_comm]

theorem mem_of_sremove_eq_some {a : String} {s s' : List String}
    (h : sremove a s = some s') : a ∈ s := by
  unfold sremove at h
  split at h
  · assumption
  · exact absurd h (by simp)

theorem mem_sremove {k a : String} {s s' : List String}
    (h : sremove a s = some s') : k ∈ s' ↔ k ∈ s ∧ k ≠ a := by
  unfold sremove at h
  split at h
  · cases h
    simp [List.mem_filter]
  · exact absurd h (by simp)

theorem dkeys_overwrite {κ σ : Type} [DecidableEq κ] (a : κ) (v : σ)
    (d : List (κ × σ)) :
    dkeys (d.map (fun p => if p.1 = a then (a, v) else p)) = dkeys d := by
  induction d with
  | nil => rfl
  | cons p ps ih =>
    by_cases h : p.1 = a
    · simp only [dkeys, List.map_cons, if_pos h] at *
      simp [h, ih]
    · simp only [dkeys, List.map_cons, if_neg h] at *
      simp [ih]

theorem mem_dkeys_dict_insert {κ σ : Type} [DecidableEq κ] {k a : κ} {v : σ}
    {d : List (κ × σ)} :
    k ∈ dkeys (dict_insert a v d) ↔ k = a ∨ k ∈ dkeys d := by
  unfold dict_insert
  split
  · rename_i hmem
    rw [dkeys_overwrite]
    constructor
    · exact Or.inr
    · rintro (rfl | hk)
      · exact hmem
      · exact hk
  · simp [dkeys, or_comm]

/-! ## The disjointness invariant of the projected state (claims C1, C2) -/

/-- At most one of four propositions holds. -/
def AtMostOne (p₁ p₂ p₃ p₄ : Prop) : Prop :=
  (p₁ → ¬p₂ ∧ ¬p₃ ∧ ¬p₄) ∧ (p₂ → ¬p₃ ∧ ¬p₄) ∧ (p₃ → ¬p₄)

/-- Every call-key is in at most one of `running`, `results`, `errors`,
`timedout`; this is the pairwise-disjointness property of the spec. -/
def StateDisjoint (st : ParseState) : Prop :=
  ∀ k, AtMostOne (k ∈ st.running) (k ∈ dkeys st.results)
    (k ∈ dkeys st.errors) (k ∈ st.timedout)

/-- A call-key already occupies one of the four components. -/
def occupies (st : ParseState) (k : String) : Prop :=
  k ∈ st.running ∨ k ∈ dkeys st.results ∨ k ∈ dkeys st.errors ∨ k ∈ st.timedout

/-- The call-keys a history introduces: the keys of its
`ActivityTaskScheduled`, `ScheduleActivityTaskFailed`,
`StartChildWorkflowExecutionInitiated` and
`StartChildWorkflowExecutionFailed` events (every other event resolves an
already-introduced key or is dropped). -/
def introducedKeys : List SWFEvent → List String
  | [] => []
  | e :: es =>
    (match e with
     | .activityTaskScheduled _ activityId => [activityId]
     | .scheduleActivityTaskFailed activityId _ => [activityId]
     | .startChildWorkflowExecutionInitiated workflowId =>
       [_subworkflow_call_key workflowId]
     | .startChildWorkflowExecutionFailed workflowId _ =>
       [_subworkflow_call_key workflowId]
     | _ => []) ++ introducedKeys es

/-! ### Preservation of disjointness by each kind of state update -/

theorem stateDisjoint_add_running {st : ParseState} {aid : String}
    (hd : StateDisjoint st) (hf : ¬ occupies st aid)
    (e2c : List (Nat × String)) :
    StateDisjoint ⟨sadd aid st.running, st.timedout, st.results, st.errors,
      st.order, e2c⟩ := by
  intro k
  have h1 := hd k
  by_cases hk : k = aid
  · subst hk
    simp only [AtMostOne, occupies] at *
    simp only [mem_sadd]
    tauto
  · simp only [AtMostOne] at *
    simp only [mem_sadd]
    tauto

theorem fresh_add_running {st : ParseState} {aid k : String}
    (h : ¬ occupies st k) (hne : k ≠ aid)
    (e2c : List (Nat × String)) :
    ¬ occupies ⟨sadd aid st.running, st.timedout, st.results, st.errors,
      st.order, e2c⟩ k := by
  simp only [occupies, mem_sadd] at *
  tauto

theorem stateDisjoint_resolve_results {st : ParseState} {id res : String}
    {r : List String} (hd : StateDisjoint st)
    (hr : sremove id st.running = some r) :
    StateDisjoint { st with running := r,
                            results := dict_insert id res st.results,
                            order := st.order ++ [id] } := by
  intro k
  have hid := mem_of_sremove_eq_some hr
  have h1 := hd k
  have h2 := hd id
  by_cases hk : k = id
  · subst hk
    simp only [AtMostOne] at *
    simp only [mem_sremove hr, mem_dkeys_dict_insert]
    tauto
  · simp only [AtMostOne] at *
    simp only [mem_sremove hr, mem_dkeys_dict_insert]
    tauto

theorem fresh_resolve_results {st : ParseState} {id res k : String}
    {r : List String} (hr : sremove id st.running = some r)
    (h : ¬ occupies st k) :
    ¬ occupies { st with running := r,
                         results := dict_insert id res st.results,
                         order := st.order ++ [id] } k := by
  have hid := mem_of_sremove_eq_some hr
  have hne : k ≠ id := fun hkid => h (Or.inl (hkid ▸ hid))
  simp only [occupies] at *
  simp only [mem_sremove hr, mem_dkeys_dict_insert]
  tauto

theorem stateDisjoint_resolve_errors {st : ParseState} {id reason : String}
    {r : List String} (hd : StateDisjoint st)
    (hr : sremove id st.running = some r) :
    StateDisjoint { st with running := r,
                            errors := dict_insert id reason st.errors,
                            order := st.order ++ [id] } := by
  intro k
  have hid := mem_of_sremove_eq_some hr
  have h1 := hd k
  have h2 := hd id
  by_cases hk : k = id
  · subst hk
    simp only [AtMostOne] at *
    simp only [mem_sremove hr, mem_dkeys_dict_insert]
    tauto
  · simp only [AtMostOne] at *
    simp only [mem_sremove hr, mem_dkeys_dict_insert]
    tauto

theorem fresh_resolve_errors {st : ParseState} {id reason k : String}
    {r : List String} (hr : sremove id st.running = some r)
    (h : ¬ occupies st k) :
    ¬ occupies { st with running := r,
                         errors := dict_insert id reason st.errors,
                         order := st.order ++ [id] } k := by
  have hid := mem_of_sremove_eq_some hr
  have hne : k ≠ id := fun hkid => h (Or.inl (hkid ▸ hid))
  simp only [occupies] at *
  simp only [mem_sremove hr, mem_dkeys_dict_insert]
  tauto

theorem stateDisjoint_resolve_timedout {st : ParseState} {id : String}
    {r : List String} (hd : StateDisjoint st)
    (hr : sremove id st.running = some r) :
    StateDisjoint { st with running := r,
                            timedout := sadd id st.timedout,
                            order := st.order ++ [id] } := by
  intro k
  have hid := mem_of_sremove_eq_some hr
  have h1 := hd k
  have h2 := hd id
  by_cases hk : k = id
  · subst hk
    simp only [AtMostOne] at *
    simp only [mem_sremove hr, mem_sadd]
    tauto
  · simp only [AtMostOne] at *
    simp only [mem_sremove hr, mem_sadd]
    tauto

theorem fresh_resolve_timedout {st : ParseState} {id k : String}
    {r : List String} (hr : sremove id st.running = some r)
    (h : ¬ occupies st k) :
    ¬ occupies { st with running := r,
                         timedout := sadd id st.timedout,
                         order := st.order ++ [id] } k := by
  have hid := mem_of_sremove_eq_some hr
  have hne : k ≠ id := fun hkid => h (Or.inl (hkid ▸ hid))
  simp only [occupies] at *
  simp only [mem_sremove hr, mem_sadd]
  tauto

theorem stateDisjoint_introduce_error {st : ParseState} {aid cause : String}
    (hd : StateDisjoint st) (hf : ¬ occupies st aid) :
    StateDisjoint { st with errors := dict_insert aid cause st.errors,
                            order := st.order ++ [aid] } := by
  intro k
  have h1 := hd k
  by_cases hk : k = aid
  · subst hk
    simp only [AtMostOne, occupies] at *
    simp only [mem_dkeys_dict_insert]
    tauto
  · simp only [AtMostOne] at *
    simp only [mem_dkeys_dict_insert]
    tauto

theorem fresh_introduce_error {st : ParseState} {aid cause k : String}
    (h : ¬ occupies st k) (hne : k ≠ aid) :
    ¬ occupies { st with errors := dict_insert aid cause st.errors,
                         order := st.order ++ [aid] } k := by
  simp only [occupies] at *
  simp only [mem_dkeys_dict_insert]
  tauto

theorem parseGo_disjoint (evs : List SWFEvent) :
    ∀ (st st' : ParseState),
    parseGo st evs = Except.ok st' → StateDisjoint st →
    (introducedKeys evs).Nodup →
    (∀ k ∈ introducedKeys evs, ¬ occupies st k) →
    StateDisjoint st' := by
  induction evs with
  | nil =>
    intro st st' h hd _ _
    cases h
    exact hd
  | cons e es ih =>
    intro st st' h hd hnodup hfresh
    simp only [parseGo] at h
    cases e with
    | activityTaskScheduled eventId activityId =>
      simp only [parse_step] at h
      simp only [introducedKeys, List.nodup_cons, List.singleton_append] at hnodup
      simp only [introducedKeys, List.singleton_append, List.mem_cons] at hfresh
      refine ih _ st' h ?_ hnodup.2 ?_
      · exact stateDisjoint_add_running hd (hfresh _ (Or.inl rfl)) _
      · intro k hk
        exact fresh_add_running (hfresh k (Or.inr hk))
          (fun hke => hnodup.1 (by rw [← hke]; exact hk)) _
    | activityTaskCompleted scheduledEventId result =>
      simp only [parse_step] at h
      rcases hg : dict_get st.event2call scheduledEventId with _ | id
      · simp only [hg] at h
        exact absurd h (by simp)
      · simp only [hg] at h
        rcases hr : sremove id st.running with _ | r
        · simp only [hr] at h
          exact absurd h (by simp)
        · simp only [hr] at h
          simp only [introducedKeys, List.nil_append] at hnodup hfresh
          refine ih _ st' h (stateDisjoint_resolve_results hd hr) hnodup ?_
          intro k hk
          exact fresh_resolve_results hr (hfresh k hk)
    | activityTaskFailed scheduledEventId reason =>
      simp only [parse_step] at h
      rcases hg : dict_get st.event2call scheduledEventId with _ | id
      · simp only [hg] at h
        exact absurd h (by simp)
      · simp only [hg] at h
        rcases hr : sremove id st.running with _ | r
        · simp only [hr] at h
          exact absurd h (by simp)
        · simp only [hr] at h
          simp only [introducedKeys, List.nil_append] at hnodup hfresh
          refine ih _ st' h (stateDisjoint_resolve_errors hd hr) hnodup ?_
          intro k hk
          exact fresh_resolve_errors hr (hfresh k hk)
    | activityTaskTimedOut scheduledEventId =>
      simp only [parse_step] at h
      rcases hg : dict_get st.event2call scheduledEventId with _ | id
      · simp only [hg] at h
        exact absurd h (by simp)
      · simp only [hg] at h
        rcases hr : sremove id st.running with _ | r
        · simp only [hr] at h
          exact absurd h (by simp)
        · simp only [hr] at h
          simp only [introducedKeys, List.nil_append] at hnodup hfresh
          refine ih _ st' h (stateDisjoint_resolve_timedout hd hr) hnodup ?_
          intro k hk
          exact fresh_resolve_timedout hr (hfresh k hk)
    | scheduleActivityTaskFailed activityId cause =>
      simp only [parse_step] at h
      simp only [introducedKeys, List.nodup_cons, List.singleton_append] at hnodup
      simp only [introducedKeys, List.singleton_append, List.mem_cons] at hfresh
      refine ih _ st' h
        (stateDisjoint_introduce_error hd (hfresh _ (Or.inl rfl))) hnodup.2 ?_
      intro k hk
      exact fresh_introduce_error (hfresh k (Or.inr hk))
        (fun hke => hnodup.1 (by rw [← hke]; exact hk))
    | startChildWorkflowExecutionInitiated workflowId =>
      simp only [parse_step] at h
      simp only [introducedKeys, List.nodup_cons, List.singleton_append] at hnodup
      simp only [introducedKeys, List.singleton_append, List.mem_cons] at hfresh
      refine ih _ st' h ?_ hnodup.2 ?_
      · exact stateDisjoint_add_running hd (hfresh _ (Or.inl rfl)) _
      · intro k hk
        exact fresh_add_running (hfresh k (Or.inr hk))
          (fun hke => hnodup.1 (by rw [← hke]; exact hk)) _
    | childWorkflowExecutionCompleted workflowId result =>
      simp only [parse_step] at h
      rcases hr : sremove (_subworkflow_call_key workflowId) st.running with _ | r
      · simp only [hr] at h
        exact absurd h (by simp)
      · simp only [hr] at h
        simp only [introducedKeys, List.nil_append] at hnodup hfresh
        refine ih _ st' h (stateDisjoint_resolve_results hd hr) hnodup ?_
        intro k hk
        exact fresh_resolve_results hr (hfresh k hk)
    | childWorkflowExecutionFailed workflowId reason =>
      simp only [parse_step] at h
      rcases hr : sremove (_subworkflow_call_key workflowId) st.running with _ | r
      · simp only [hr] at h
        exact absurd h (by simp)
      · simp only [hr] at h
        simp only [introducedKeys, List.nil_append] at hnodup hfresh
        refine ih _ st' h (stateDisjoint_resolve_errors hd hr) hnodup ?_
        intro k hk
        exact fresh_resolve_errors hr (hfresh k hk)
    | childWorkflowExecutionTimedOut workflowId =>
      simp only [parse_step] at h
      rcases hr : sremove (_subworkflow_call_key workflowId) st.running with _ | r
      · simp only [hr] at h
        exact absurd h (by simp)
      · simp only [hr] at h
        simp only [introducedKeys, List.nil_append] at hnodup hfresh
        refine ih _ st' h (stateDisjoint_resolve_timedout hd hr) hnodup ?_
        intro k hk
        exact fresh_resolve_timedout hr (hfresh k hk)
    | startChildWorkflowExecutionFailed workflowId cause =>
      simp only [parse_step] at h
      simp only [introducedKeys, List.nodup_cons, List.singleton_append] at hnodup
      simp only [introducedKeys, List.singleton_append, List.mem_cons] at hfresh
      refine ih _ st' h
        (stateDisjoint_introduce_error hd (hfresh _ (Or.inl rfl))) hnodup.2 ?_
      intro k hk
      exact fresh_introduce_error (hfresh k (Or.inr hk))
        (fun hke => hnodup.1 (by rw [← hke]; exact hk))
    | timerStarted timerId =>
      simp only [parse_step] at h
      exact absurd h (by simp)
    | timerFired timerId =>
      simp only [parse_step] at h
      exact absurd h (by simp)
    | other =>
      simp only [parse_step] at h
      simp only [introducedKeys, List.nil_append] at hnodup hfresh
      exact ih _ st' h hd hnodup hfresh

/-! ### The contents of `order` (claim C2) -/

/-- The elements of `order` are exactly the keys of `results`, the keys of
`errors` and the members of `timedout`. -/
def OrderMatches (st : ParseState) : Prop :=
  ∀ k, k ∈ st.order ↔
    (k ∈ dkeys st.results ∨ k ∈ dkeys st.errors ∨ k ∈ st.timedout)

theorem orderMatches_resolve_results {st : ParseState} {id res : String}
    {r : List String} (hO : OrderMatches st) :
    OrderMatches { st with running := r,
                           results := dict_insert id res st.results,
                           order := st.order ++ [id] } := by
  intro k
  have h1 := hO k
  simp only [List.mem_append, List.mem_singleton, mem_dkeys_dict_insert]
  tauto

theorem orderMatches_resolve_errors {st : ParseState} {id reason : String}
    {r : List String} (hO : OrderMatches st) :
    OrderMatches { st with running := r,
                           errors := dict_insert id reason st.errors,
                           order := st.order ++ [id] } := by
  intro k
  have h1 := hO k
  simp only [List.mem_append, List.mem_singleton, mem_dkeys_dict_insert]
  tauto

theorem orderMatches_resolve_timedout {st : ParseState} {id : String}
    {r : List String} (hO : OrderMatches st) :
    OrderMatches { st with running := r,
                           timedout := sadd id st.timedout,
                           order := st.order ++ [id] } := by
  intro k
  have h1 := hO k
  simp only [List.mem_append, List.mem_singleton, mem_sadd]
  tauto

theorem orderMatches_introduce_error {st : ParseState} {aid cause : String}
    (hO : OrderMatches st) :
    OrderMatches { st with errors := dict_insert aid cause st.errors,
                           order := st.order ++ [aid] } := by
  intro k
  have h1 := hO k
  simp only [List.mem_append, List.mem_singleton, mem_dkeys_dict_insert]
  tauto

theorem parseGo_order (evs : List SWFEvent) :
    ∀ (st st' : ParseState),
    parseGo st evs = Except.ok st' → OrderMatches st → OrderMatches st' := by
  induction evs with
  | nil =>
    intro st st' h hO
    cases h
    exact hO
  | cons e es ih =>
    intro st st' h hO
    simp only [parseGo] at h
    cases e with
    | activityTaskScheduled eventId activityId =>
      simp only [parse_step] at h
      exact ih _ st' h (fun k => hO k)
    | activityTaskCompleted scheduledEventId result =>
      simp only [parse_step] at h
      rcases hg : dict_get st.event2call scheduledEventId with _ | id
      · simp only [hg] at h
        exact absurd h (by simp)
      · simp only [hg] at h
        rcases hr : sremove id st.running with _ | r
        · simp only [hr] at h
          exact absurd h (by simp)
        · simp only [hr] at h
          exact ih _ st' h (orderMatches_resolve_results hO)
    | activityTaskFailed scheduledEventId reason =>
      simp only [parse_step] at h
      rcases hg : dict_get st.event2call scheduledEventId with _ | id
      · simp only [hg] at h
        exact absurd h (by simp)
      · simp only [hg] at h
        rcases hr : sremove id st.running with _ | r
        · simp only [hr] at h
          exact absurd h (by simp)
        · simp only [hr] at h
          exact ih _ st' h (orderMatches_resolve_errors hO)
    | activityTaskTimedOut scheduledEventId =>
      simp only [parse_step] at h
      rcases hg : dict_get st.event2call scheduledEventId with _ | id
      · simp only [hg] at h
        exact absurd h (by simp)
      · simp only [hg] at h
        rcases hr : sremove id st.running with _ | r
        · simp only [hr] at h
          exact absurd h (by simp)
        · simp only [hr] at h
          exact ih _ st' h (orderMatches_resolve_timedout hO)
    | scheduleActivityTaskFailed activityId cause =>
      simp only [parse_step] at h
      exact ih _ st' h (orderMatches_introduce_error hO)
    | startChildWorkflowExecutionInitiated workflowId =>
      simp only [parse_step] at h
      exact ih _ st' h (fun k => hO k)
    | childWorkflowExecutionCompleted workflowId result =>
      simp only [parse_step] at h
      rcases hr : sremove (_subworkflow_call_key workflowId) st.running with _ | r
      · simp only [hr] at h
        exact absurd h (by simp)
      · simp only [hr] at h
        exact ih _ st' h (orderMatches_resolve_results hO)
    | childWorkflowExecutionFailed workflowId reason =>
      simp only [parse_step] at h
      rcases hr : sremove (_subworkflow_call_key workflowId) st.running with _ | r
      · simp only [hr] at h
        exact absurd h (by simp)
      · simp only [hr] at h
        exact ih _ st' h (orderMatches_resolve_errors hO)
    | childWorkflowExecutionTimedOut workflowId =>
      simp only [parse_step] at h
      rcases hr : sremove (_subworkflow_call_key workflowId) st.running with _ | r
      · simp only [hr] at h
        exact absurd h (by simp)
      · simp only [hr] at h
        exact ih _ st' h (orderMatches_resolve_timedout hO)
    | startChildWorkflowExecutionFailed workflowId cause =>
      simp only [parse_step] at h
      exact ih _ st' h (orderMatches_introduce_error hO)
    | timerStarted timerId =>
      simp only [parse_step] at h
      exact absurd h (by simp)
    | timerFired timerId =>
      simp only [parse_step] at h
      exact absurd h (by simp)
    | other =>
      simp only [parse_step] at h
      exact ih _ st' h hO

/-- Claim C1 (amended): for every event history on which `parse_events`
succeeds and whose introduced call-keys (from `ActivityTaskScheduled`,
`ScheduleActivityTaskFailed`, `StartChildWorkflowExecutionInitiated` and
`StartChildWorkflowExecutionFailed` events) are pairwise distinct, every
call-key occurs in at most one of `running`, the keys of `results`, the
keys of `errors` and `timedout`; in particular the disjointness equations
of the claim hold.  (Unrestricted histories can re-introduce a running or
already-resolved key, see the counterexample.) -/
theorem parse_events_at_most_one (events : List SWFEvent) (st : ParseState)
    (h : parse_events events = Except.ok st)
    (hn : (introducedKeys events).Nodup) :
    StateDisjoint st :=
  parseGo_disjoint events _ st h (fun _ => by simp [AtMostOne, dkeys]) hn
    (fun _ _ => by simp [occupies, dkeys])

/-- Witness for C1: a two-event history with one scheduled and completed
activity satisfies the hypotheses, and the projected state is disjoint. -/
theorem parse_events_at_most_one_witness :
    StateDisjoint ⟨[], [], [("0", "14")], [], ["0"], [(1, "0")]⟩ :=
  parse_events_at_most_one
    [.activityTaskScheduled 1 "0", .activityTaskCompleted 1 "14"] _
    (by rfl) (by decide)

/-- Counterexample for C1 as stated: a `ScheduleActivityTaskFailed` event
records an error for a key that is still in `running` (it performs no
`running` removal), so after `[ActivityTaskScheduled(1, "0"),
ScheduleActivityTaskFailed("0", "c")]` the key `"0"` is in `running` and in
the keys of `errors` at once. -/
theorem parse_events_disjoint_cex :
    parse_events [.activityTaskScheduled 1 "0",
      .scheduleActivityTaskFailed "0" "c"] =
      Except.ok ⟨["0"], [], [], [("0", "c")], ["0"], [(1, "0")]⟩ ∧
    ¬ StateDisjoint ⟨["0"], [], [], [("0", "c")], ["0"], [(1, "0")]⟩ := by
  refine ⟨rfl, fun hdis => ?_⟩
  exact ((hdis "0").1 (by decide)).2.1 (by decide)

/-- Claim C2 (amended): for every event history on which `parse_events`
succeeds, the elements of `order` are exactly the union of the keys of
`results`, the keys of `errors` and `timedout` (set equality; `order` is
not in general duplicate-free, see the counterexample). -/
theorem parse_events_order_contents (events : List SWFEvent)
    (st : ParseState) (h : parse_events events = Except.ok st) :
    OrderMatches st :=
  parseGo_order events _ st h (fun _ => by simp [dkeys])

/-- Witness for C2: on a history with one scheduled and failed activity the
projected `order` has exactly the union's contents. -/
theorem parse_events_order_contents_witness :
    OrderMatches ⟨[], [], [], [("a", "boom")], ["a"], [(2, "a")]⟩ :=
  parse_events_order_contents
    [.activityTaskScheduled 2 "a", .activityTaskFailed 2 "boom"] _ (by rfl)

/-- Counterexample for C2 as stated: two `ScheduleActivityTaskFailed` events
for the same key append the key to `order` twice while the error dict keeps
one entry, so `order` is not duplicate-free and is not a permutation of the
union of the (duplicate-free) key sets. -/
theorem parse_events_order_perm_cex :
    parse_events [.scheduleActivityTaskFailed "0" "c",
      .scheduleActivityTaskFailed "0" "d"] =
      Except.ok ⟨[], [], [], [("0", "d")], ["0", "0"], []⟩ ∧
    ¬ List.Nodup ["0", "0"] ∧
    ¬ List.Perm ["0", "0"]
      (dkeys ([] : List (String × String)) ++ dkeys [("0", "d")]
        ++ ([] : List String)) := by
  refine ⟨rfl, by decide, by decide⟩

/-! ## Claim C5: the sub-workflow call-key round trip -/

theorem pySplit_ne_nil (sep : Char) (l : List Char) : pySplit sep l ≠ [] := by
  cases l with
  | nil => simp [pySplit]
  | cons c cs =>
    simp only [pySplit]
    split
    · simp
    · split <;> simp

theorem pySplit_no_sep {sep : Char} :
    ∀ {l : List Char}, sep ∉ l → pySplit sep l = [l] := by
  intro l
  induction l with
  | nil => intro _; rfl
  | cons c cs ih =>
    intro h
    rw [List.mem_cons, not_or] at h
    have hcs := ih h.2
    simp only [pySplit, hcs]
    rw [if_neg (fun hc => h.1 hc.symm)]

theorem two_le_pySplit_length {sep : Char} :
    ∀ {l : List Char}, sep ∈ l → 2 ≤ (pySplit sep l).length := by
  intro l
  induction l with
  | nil => intro h; simp at h
  | cons c cs ih =>
    intro h
    by_cases hc : c = sep
    · simp only [pySplit, if_pos hc, List.length_cons]
      have h1 : 0 < (pySplit sep cs).length :=
        List.length_pos.mpr (pySplit_ne_nil sep cs)
      omega
    · have hs : sep ∈ cs := by
        rcases List.mem_cons.mp h with h1 | h1
        · exact absurd h1.symm hc
        · exact h1
      obtain ⟨p, ps, hps⟩ := List.exists_cons_of_ne_nil (pySplit_ne_nil sep cs)
      have h2 := ih hs
      rw [hps] at h2
      simp only [pySplit, if_neg hc, hps, List.length_cons] at *
      omega

theorem getLastD_irrel {α : Type} {l : List α} (h : l ≠ []) (d₁ d₂ : α) :
    l.getLastD d₁ = l.getLastD d₂ := by
  cases l with
  | nil => exact absurd rfl h
  | cons a as => rw [List.getLastD_cons, List.getLastD_cons]

theorem pySplit_getLastD_append (sep : Char) (u k : List Char) :
    (pySplit sep (u ++ sep :: k)).getLastD [] = (pySplit sep k).getLastD [] := by
  induction u with
  | nil =>
    simp only [List.nil_append, pySplit, if_pos rfl]
    exact List.getLastD_cons _ _ _
  | cons c cs ih =>
    by_cases hc : c = sep
    · simp only [List.cons_append, pySplit, if_pos hc]
      rw [List.getLastD_cons]
      exact ih
    · have hs : sep ∈ cs ++ sep :: k :=
        List.mem_append_right _ (List.mem_cons_self _ _)
      obtain ⟨p, ps, hps⟩ :=
        List.exists_cons_of_ne_nil (pySplit_ne_nil sep (cs ++ sep :: k))
      have hps2 : ps ≠ [] := by
        have h2 := two_le_pySplit_length hs
        rw [hps] at h2
        simp only [List.length_cons] at h2
        intro hnil
        rw [hnil] at h2
        simp at h2
      rw [hps] at ih
      rw [List.getLastD_cons] at ih
      simp only [List.cons_append, pySplit, if_neg hc, List.append_eq, hps]
      rw [List.getLastD_cons]
      rw [getLastD_irrel hps2 (c :: p) p]
      exact ih

/-- Claim C5 (amended): for every sub-workflow call-key `k` that contains no
dash, extracting the call-key from the wrapped workflow id returns `k`, for
any uuid prefix.  (A key containing a dash is cut at its last dash by
`split('-')[-1]`, see the counterexample.) -/
theorem subworkflow_key_round_trip (u call_key : String)
    (h : '-' ∉ call_key.data) :
    _subworkflow_call_key (_subworkflow_key u call_key) = call_key := by
  cases call_key with
  | mk kd =>
    unfold _subworkflow_call_key _subworkflow_key
    have hdata : (u ++ "-" ++ String.mk kd).data = u.data ++ '-' :: kd := by
      rw [String.data_append, String.data_append]
      simp [List.append_assoc]
    rw [hdata, pySplit_getLastD_append, pySplit_no_sep h]
    rfl

/-- Witness for C5: the dash-free key `"0"` with a concrete uuid. -/
theorem subworkflow_key_round_trip_witness :
    _subworkflow_call_key (_subworkflow_key "e8b4f0aa-11d2" "0") = "0" :=
  subworkflow_key_round_trip "e8b4f0aa-11d2" "0" (by decide)

/-- Counterexample for C5 as stated: a call-key containing a dash does not
round-trip; `split('-')[-1]` keeps only the part after the last dash. -/
theorem subworkflow_key_round_trip_cex :
    _subworkflow_call_key (_subworkflow_key "e8b4f0aa-11d2" "a-b") = "b" ∧
    _subworkflow_call_key (_subworkflow_key "e8b4f0aa-11d2" "a-b") ≠ "a-b" := by
  refine ⟨by decide, by decide⟩

/-! ## Claim C6: the context-blob round trip -/

theorem digitVal_digitChar {d : Nat} (h : d < 10) :
    digitVal (digitChar d) = d := by
  interval_cases d <;> rfl

theorem digitChar_isDigit (d : Nat) : (digitChar d).isDigit = true := by
  unfold digitChar
  rcases d with _ | _ | _ | _ | _ | _ | _ | _ | _ | _ <;> rfl

theorem natReprAux_all_digits :
    ∀ (fuel n : Nat), (natReprAux fuel n).all Char.isDigit = true := by
  intro fuel
  induction fuel with
  | zero => intro n; cases n <;> rfl
  | succ m ih =>
    intro n
    cases n with
    | zero => rfl
    | succ k =>
      simp only [natReprAux, List.all_append, ih, Bool.true_and, List.all_cons,
        List.all_nil, Bool.and_true]
      exact digitChar_isDigit _

theorem natReprAux_ne_nil {fuel n : Nat} (h0 : 0 < n) (hf : n ≤ fuel) :
    natReprAux fuel n ≠ [] := by
  cases fuel with
  | zero => omega
  | succ m =>
    cases n with
    | zero => omega
    | succ k => simp [natReprAux]

theorem natReprAux_foldl :
    ∀ (fuel n : Nat), n ≤ fuel →
    (natReprAux fuel n).foldl (fun acc c => 10 * acc + digitVal c) 0 = n := by
  intro fuel
  induction fuel with
  | zero =>
    intro n hn
    interval_cases n
    rfl
  | succ m ih =>
    intro n hn
    cases n with
    | zero => rfl
    | succ k =>
      have hdiv : (k + 1) / 10 ≤ m := by
        have := Nat.div_lt_self (Nat.succ_pos k) (by norm_num : 1 < 10)
        omega
      simp only [natReprAux, List.foldl_append, ih _ hdiv, List.foldl_cons,
        List.foldl_nil]
      rw [digitVal_digitChar (Nat.mod_lt _ (by norm_num))]
      exact Nat.div_add_mod (k + 1) 10

theorem parseDecimal_natRepr (n : Nat) :
    parseDecimal (natRepr n).data = some n := by
  unfold natRepr
  by_cases h : n = 0
  · subst h
    rfl
  · rw [if_neg h]
    have hne : natReprAux n n ≠ [] :=
      natReprAux_ne_nil (Nat.pos_of_ne_zero h) le_rfl
    unfold parseDecimal
    rw [if_pos ⟨hne, natReprAux_all_digits n n⟩]
    rw [natReprAux_foldl n n le_rfl]

theorem natRepr_no_space (n : Nat) : ' ' ∉ (natRepr n).data := by
  unfold natRepr
  by_cases h : n = 0
  · subst h
    decide
  · rw [if_neg h]
    intro hmem
    have hall := natReprAux_all_digits n n
    rw [List.all_eq_true] at hall
    have := hall _ hmem
    exact absurd this (by decide)

theorem pySplitOnce_append {l₁ l₂ : List Char} (h : ' ' ∉ l₁) :
    pySplitOnce ' ' (l₁ ++ ' ' :: l₂) = some (l₁, l₂) := by
  induction l₁ with
  | nil => simp [pySplitOnce]
  | cons c cs ih =>
    rw [List.mem_cons, not_or] at h
    have hc : ¬ c = ' ' := fun hcc => h.1 hcc.symm
    simp only [List.cons_append, pySplitOnce, List.append_eq,
      if_neg hc, ih h.2, Option.map_some']

/-- Claim C6 (amended): deconcatenating the length-prefixed concatenation
returns the original pair for every string `a` and every `b` that is either
absent or a non-empty string.  (For `b` the empty string, deconcat returns
the pair with `b` absent instead, see the counterexample.) -/
theorem str_concat_round_trip (a : String) (b : Option String)
    (hb : b ≠ some "") :
    _str_deconcat (_str_concat a b) = Except.ok (a, b) := by
  cases b with
  | none =>
    unfold _str_concat _str_deconcat
    have hdata : (natRepr a.length ++ " " ++ a).data =
        (natRepr a.length).data ++ ' ' :: a.data := by
      rw [String.data_append, String.data_append]
      simp [List.append_assoc]
    rw [hdata, pySplitOnce_append (natRepr_no_space _)]
    have htake : a.data.take a.length = a.data := List.take_length a.data
    have hdrop : a.data.drop a.length = [] := by
      have h1 : a.length = a.data.length := rfl
      rw [h1, List.drop_length]
    simp only [parseDecimal_natRepr, htake, hdrop, if_pos]
  | some s2 =>
    have hs2 : s2.data ≠ [] := by
      intro hnil
      apply hb
      cases s2
      cases hnil
      rfl
    unfold _str_concat _str_deconcat
    have hdata : (natRepr a.length ++ " " ++ a ++ s2).data =
        (natRepr a.length).data ++ ' ' :: (a.data ++ s2.data) := by
      rw [String.data_append, String.data_append, String.data_append]
      simp [List.append_assoc]
    rw [hdata, pySplitOnce_append (natRepr_no_space _)]
    have hlen : a.length = a.data.length := rfl
    have htake : (a.data ++ s2.data).take a.length = a.data := by
      rw [hlen]
      exact List.take_left _ _
    have hdrop : (a.data ++ s2.data).drop a.length = s2.data := by
      rw [hlen]
      exact List.drop_left _ _
    simp only [parseDecimal_natRepr, htake, hdrop, if_neg hs2]

/-- Witness for C6: a concrete json part and non-empty tail round-trip. -/
theorem str_concat_round_trip_witness :
    _str_deconcat (_str_concat "json" (some "tail")) =
      Except.ok ("json", some "tail") :=
  str_concat_round_trip "json" (some "tail") (by decide)

/-- Counterexample for C6 as stated: with `b` the empty string the
round trip returns `(a, None)`, not `(a, "")` — the empty tail is collapsed
to absent by `_str_deconcat`. -/
theorem str_concat_round_trip_cex :
    _str_deconcat (_str_concat "x" (some "")) = Except.ok ("x", none) ∧
    Except.ok ("x", (none : Option String)) ≠
      Except.ok (ε := Unit) ("x", some "") := by
  constructor
  · rfl
  · intro hcontra
    simp at hcontra

/-! ## The decision context (class `SWFContext`, src/flowy/backend/swf.py
lines 520-632)

Decisions are the entries `Layer1Decisions` accumulates; `_str_or_none` and
`str.upper` are the Python helpers used on option-valued fields. -/

/-- `_str_or_none` (src/flowy/backend/swf.py lines 756-759); on values that
are already strings `str` is the identity. -/
def _str_or_none (val : Option String) : Option String := val

/-- Python `str.upper` on ASCII strings. -/
def str_upper (s : String) : String := ⟨s.data.map Char.toUpper⟩

/-- `_CHILD_POLICY` (line 31): valid child-policy values, `None` included. -/
def _CHILD_POLICY : List (Option String) :=
  [some "TERMINATE", some "REQUEST_CANCEL", some "ABANDON", none]

/-- The outgoing decisions accumulated by a context
(`Layer1Decisions` entries). -/
inductive Decision : Type
  | startTimer (timerId : String) (startToFireTimeout : Int)
  | scheduleActivityTask (activityId name version input : String)
    (taskList heartbeat scheduleToClose scheduleToStart startToClose :
      Option String)
  | startChildWorkflowExecution (name version workflowId input : String)
    (taskStartToClose executionStartToClose taskList : Option String)
  | failWorkflowExecution (reason : String)
  | completeWorkflowExecution (result : String)
  | continueAsNewWorkflowExecution (startToClose executionStartToClose
      taskList : Option String) (input : String) (tagList : Option (List String))
    (childPolicy : Option String)
  deriving DecidableEq

/-- The mutable surface of `SWFContext`: the projected state fields the
context queries, the decision batch, and the `closed` flag.  The transport
fields (`layer1`, `token`) and the started-event attributes that `restart`
copies are modelled where needed. -/
structure SWFCtx : Type where
  running : List String
  timedout : List String
  results : List (String × String)
  errors : List (String × String)
  order : List String
  task_list : Option String
  decision_duration : Option String
  workflow_duration : Option String
  tags : Option (List String)
  child_policy : Option String
  decisions : List Decision
  closed : Bool
  deriving DecidableEq

/-- A Python exception escaping a context operation. -/
inductive PyErr : Type
  | nameError
  | valueError
  deriving DecidableEq

/-- `SWFContext.timer_ready` (lines 563-564): `return str(call_key) in
results`.  The bare name `results` is unbound in the module (the projected
dict lives in `self.results`), so every call raises `NameError`. -/
def ctx_timer_ready (_st : SWFCtx) (_call_key : String) : Except PyErr Bool :=
  .error .nameError

/-- `SWFContext.schedule_timer` (lines 605-608): append one `start_timer`
decision keyed with the timer namespace suffix. -/
def ctx_schedule_timer (st : SWFCtx) (call_key : String) (delay : Int) : SWFCtx :=
  { st with decisions :=
      st.decisions ++ [.startTimer (_timer_key call_key) delay] }

/-- `SWFContext.schedule_activity` (lines 610-621). -/
def ctx_schedule_activity (st : SWFCtx) (call_key name version input : String)
    (task_list heartbeat schedule_to_close schedule_to_start start_to_close :
      Option String) : SWFCtx :=
  { st with decisions := st.decisions ++
      [.scheduleActivityTask call_key name version input
        (_str_or_none task_list) (_str_or_none heartbeat)
        (_str_or_none schedule_to_close) (_str_or_none schedule_to_start)
        (_str_or_none start_to_close)] }

/-- `SWFContext.schedule_workflow` (lines 623-632); the fresh uuid consumed
by `_subworkflow_key` is the explicit argument `u`. -/
def ctx_schedule_workflow (st : SWFCtx) (u call_key name version input : String)
    (task_list workflow_duration decision_duration : Option String) : SWFCtx :=
  { st with decisions := st.decisions ++
      [.startChildWorkflowExecution name version (_subworkflow_key u call_key)
        input (_str_or_none decision_duration) (_str_or_none workflow_duration)
        (_str_or_none task_list)] }

/-- `SWFContext.flush` (lines 571-581): respond once; returns the updated
context and the decision batch submitted to the service (`none` when the
context was already closed and nothing is sent).  A transport error during
the send is swallowed and does not change the state. -/
def ctx_flush (st : SWFCtx) : SWFCtx × Option (List Decision) :=
  if st.closed then (st, none)
  else ({ st with closed := true }, some st.decisions)

/-- `SWFContext.fail` (lines 566-569): replace the batch with a single
`fail_workflow_execution` decision with the reason truncated to
`_REASON_SIZE` bytes, then flush. -/
def ctx_fail (st : SWFCtx) (reason : String) : SWFCtx × Option (List Decision) :=
  ctx_flush { st with decisions :=
      [.failWorkflowExecution (py_slice_front _REASON_SIZE reason)] }

/-- `SWFContext.finish` (lines 598-601): replace the batch with a single
`complete_workflow_execution` decision with the result truncated to
`_RESULT_SIZE` bytes, then flush. -/
def ctx_finish (st : SWFCtx) (result : String) : SWFCtx × Option (List Decision) :=
  ctx_flush { st with decisions :=
      [.completeWorkflowExecution (py_slice_front _RESULT_SIZE result)] }

/-- `SWFContext.restart` (lines 583-596): validate the started event's child
policy against `_CHILD_POLICY` WITHOUT upper-casing it (unlike
`_cvt_values`), raising `ValueError` on failure, then replace the batch
with a single `continue_as_new` decision and flush. -/
def ctx_restart (st : SWFCtx) (input : String) :
    Except PyErr (SWFCtx × Option (List Decision)) :=
  let child_policy := _str_or_none st.child_policy
  if child_policy ∈ _CHILD_POLICY then
    .ok (ctx_flush { st with decisions :=
      [.continueAsNewWorkflowExecution (_str_or_none st.decision_duration)
        (_str_or_none st.workflow_duration) (_str_or_none st.task_list)
        (py_slice_front _INPUT_SIZE input) st.tags
        (_str_or_none st.child_policy)] })
  else .error .valueError

/-! ## Proxies (src/flowy/backend/swf.py lines 293-374)

`schedule` receives the context, the call-key and the retry delay from
`ContextBoundProxy`; the input-codec call is modelled by its outcome
`serialized` (`.error msg` when `serialize_input` raises). -/

structure SWFActivityProxy : Type where
  identity : String
  name : String
  version : String
  task_list : Option String
  heartbeat : Option String
  schedule_to_close : Option String
  schedule_to_start : Option String
  start_to_close : Option String
  retry : List Int
  deriving DecidableEq

structure SWFWorkflowProxy : Type where
  identity : String
  name : String
  version : String
  task_list : Option String
  workflow_duration : Option String
  decision_duration : Option String
  retry : List Int
  deriving DecidableEq

/-- `SWFActivityProxy.schedule` (lines 322-341): with a positive delay it
consults `context.timer_ready` (which always raises, see
`ctx_timer_ready`) before scheduling a timer; otherwise it serializes the
input and either fails the workflow (serialization error) or appends a
`schedule_activity_task` decision. -/
def activity_proxy_schedule (p : SWFActivityProxy) (st : SWFCtx)
    (call_key : String) (delay : Int) (serialized : Except String String) :
    Except PyErr (SWFCtx × Option (List Decision)) :=
  if delay > 0 then
    match ctx_timer_ready st call_key with
    | .error e => .error e
    | .ok ready =>
      if ¬ ready then .ok (ctx_schedule_timer st call_key delay, none)
      else
        match serialized with
        | .error msg => .ok (ctx_fail st msg)
        | .ok input =>
          .ok (ctx_schedule_activity st call_key p.name p.version input
            p.task_list p.heartbeat p.schedule_to_close p.schedule_to_start
            p.start_to_close, none)
  else
    match serialized with
    | .error msg => .ok (ctx_fail st msg)
    | .ok input =>
      .ok (ctx_schedule_activity st call_key p.name p.version input
        p.task_list p.heartbeat p.schedule_to_close p.schedule_to_start
        p.start_to_close, none)

/-- `SWFWorkflowProxy.schedule` (lines 363-374): same shape with
`schedule_workflow`; `u` is the uuid consumed by `_subworkflow_key`. -/
def workflow_proxy_schedule (p : SWFWorkflowProxy) (u : String) (st : SWFCtx)
    (call_key : String) (delay : Int) (serialized : Except String String) :
    Except PyErr (SWFCtx × Option (List Decision)) :=
  if delay > 0 then
    match ctx_timer_ready st call_key with
    | .error e => .error e
    | .ok ready =>
      if ¬ ready then .ok (ctx_schedule_timer st call_key delay, none)
      else
        match serialized with
        | .error msg => .ok (ctx_fail st msg)
        | .ok input =>
          .ok (ctx_schedule_workflow st u call_key p.name p.version input
            p.task_list p.workflow_duration p.decision_duration, none)
  else
    match serialized with
    | .error msg => .ok (ctx_fail st msg)
    | .ok input =>
      .ok (ctx_schedule_workflow st u call_key p.name p.version input
        p.task_list p.workflow_duration p.decision_duration, none)

/-- An open decision context with an empty projected state, used to
evaluate the timer path. -/
def c3_ctx : SWFCtx :=
  ⟨[], [], [], [], [], none, none, none, none, none, [], false⟩

def c3_activity_proxy : SWFActivityProxy :=
  ⟨"a", "A", "1", none, none, none, none, none, [0, 0, 0]⟩

def c3_workflow_proxy : SWFWorkflowProxy :=
  ⟨"w", "W", "1", none, none, none, [0, 0, 0]⟩

/-- Claim C3: evaluation of the delayed-retry path.  With a positive delay
both proxies crash with `NameError` before emitting any decision, because
`SWFContext.timer_ready` reads the unbound module name `results`; no
`start_timer` decision is produced.  `SWFContext.schedule_timer` itself
(which the claim describes) does key its decision with the `:t` suffix. -/
theorem timer_path_raises_name_error :
    activity_proxy_schedule c3_activity_proxy c3_ctx "0" 1 (.ok "[[7], {}]") =
      .error .nameError ∧
    workflow_proxy_schedule c3_workflow_proxy "u1" c3_ctx "0" 1 (.ok "[[7], {}]") =
      .error .nameError ∧
    ctx_timer_ready c3_ctx "0" = .error .nameError ∧
    (ctx_schedule_timer c3_ctx "0" 5).decisions = [.startTimer "0:t" 5] := by
  refine ⟨rfl, rfl, rfl, rfl⟩

/-! ## Registration & configuration conversion
(class `SWFWorkflowConfig`, src/flowy/backend/swf.py lines 42-202) -/

/-- Exceptions raised while converting configuration values. -/
inductive CvtErr : Type
  | runtimeError
  | valueError
  deriving DecidableEq

/-- `_timer_encode` (lines 747-753): clamp to non-negative, reject zero,
render as a decimal string. -/
def _timer_encode (val : Option Int) : Except CvtErr (Option String) :=
  match val with
  | none => .ok none
  | some v =>
    let v' := max v 0
    if v' = 0 then .error .valueError else .ok (some (natRepr v'.toNat))

/-- The constructor arguments of `SWFWorkflowConfig` that `_cvt_values`
reads. -/
structure SWFWorkflowConfigData : Type where
  name : Option String
  version : String
  d_t_l : Option String
  d_w_d : Option Int
  d_d_d : Option Int
  d_c_p : Option String
  deriving DecidableEq

/-- The tuple `_cvt_values` returns. -/
structure CvtValues : Type where
  name : String
  version : String
  d_t_l : Option String
  d_w_d : Option String
  d_d_d : Option String
  d_c_p : Option String
  deriving DecidableEq

/-- `SWFWorkflowConfig._cvt_values` (lines 128-141): requires a name,
encodes the durations, upper-cases the child policy when present and
validates it against `_CHILD_POLICY`. -/
def _cvt_values (c : SWFWorkflowConfigData) : Except CvtErr CvtValues :=
  match c.name with
  | none => .error .runtimeError
  | some name =>
    match _timer_encode c.d_w_d with
    | .error e => .error e
    | .ok d_w_d =>
      match _timer_encode c.d_d_d with
      | .error e => .error e
      | .ok d_d_d =>
        let d_c_p := (_str_or_none c.d_c_p).map str_upper
        if d_c_p ∈ _CHILD_POLICY then
          .ok ⟨name, c.version, _str_or_none c.d_t_l, d_w_d, d_d_d, d_c_p⟩
        else .error .valueError

/-- An open context whose started event carried the lower-case child policy
`"terminate"`. -/
def c7_ctx : SWFCtx :=
  ⟨[], [], [], [], [], some "tl", some "60", some "3600", none,
    some "terminate", [], false⟩

/-- The same context with the upper-case spelling. -/
def c7_ctx_upper : SWFCtx :=
  ⟨[], [], [], [], [], some "tl", some "60", some "3600", none,
    some "TERMINATE", [], false⟩

/-- Claim C7: evaluation of both validation paths on a lower-case policy.
The registration path (`_cvt_values`) upper-cases before validating and
accepts `"terminate"`, transmitting `"TERMINATE"`; the restart path
(`SWFContext.restart`) validates the raw string against the upper-case
list and raises `ValueError` for `"terminate"`, while accepting
`"TERMINATE"`. -/
theorem child_policy_validation_paths :
    _cvt_values ⟨some "W", "1", none, none, none, some "terminate"⟩ =
      Except.ok ⟨"W", "1", none, none, none, some "TERMINATE"⟩ ∧
    ctx_restart c7_ctx "in" = .error .valueError ∧
    ctx_restart c7_ctx_upper "in" =
      .ok (⟨[], [], [], [], [], some "tl", some "60", some "3600", none,
          some "TERMINATE",
          [.continueAsNewWorkflowExecution (some "60") (some "3600")
            (some "tl") "in" none (some "TERMINATE")], true⟩,
        some [.continueAsNewWorkflowExecution (some "60") (some "3600")
          (some "tl") "in" none (some "TERMINATE")]) := by
  refine ⟨rfl, rfl, rfl⟩

/-! ## Compatibility check and worker registration fault (claim C8) -/

/-- The fields of `describe_workflow_type(...)['configuration']` that
`check_compatible` reads (lines 187-202). -/
structure RemoteWorkflowConfig : Type where
  defaultTaskList : Option String
  defaultTaskStartToCloseTimeout : Option String
  defaultExecutionStartToCloseTimeout : Option String
  defaultChildPolicy : Option String
  deriving DecidableEq

/-- `SWFWorkflowConfig.check_compatible` (lines 170-202), applied to the
already-converted values: fetch the remote configuration (a transport error
becomes a registration fault) and compare task list, decision duration,
workflow duration and child policy in that order; any mismatch raises
`_RegistrationError` with a message. -/
def check_compatible (cv : CvtValues)
    (fetch : Except Unit RemoteWorkflowConfig) : Except String Unit :=
  match fetch with
  | .error _ => .error "Error while checking workflow compatibility"
  | .ok w =>
    if w.defaultTaskList ≠ cv.d_t_l then
      .error "Default task list does not match"
    else if w.defaultTaskStartToCloseTimeout ≠ cv.d_d_d then
      .error "Default decision duration does not match"
    else if w.defaultExecutionStartToCloseTimeout ≠ cv.d_w_d then
      .error "Default workflow duration does not match"
    else if w.defaultChildPolicy ≠ cv.d_c_p then
      .error "Default child policy does not match"
    else .ok ()

/-- The outcome of the `register_workflow_type` call inside
`try_register_remote` (lines 143-168). -/
inductive RegisterOutcome : Type
  | registered
  | typeAlreadyExists
  | responseError
  deriving DecidableEq

/-- `try_register_remote`: `True` when registered as new, `False` when the
type already exists, a registration fault on other transport errors. -/
def try_register_remote (outcome : RegisterOutcome) : Except String Bool :=
  match outcome with
  | .registered => .ok true
  | .typeAlreadyExists => .ok false
  | .responseError => .error "Error while registering the workflow"

/-- `register_remote` (lines 109-126): register, and on "already exists"
check compatibility. -/
def register_remote (outcome : RegisterOutcome) (cv : CvtValues)
    (fetch : Except Unit RemoteWorkflowConfig) : Except String Unit :=
  match try_register_remote outcome with
  | .error e => .error e
  | .ok true => .ok ()
  | .ok false => check_compatible cv fetch

/-- The registration phase of `start_swf_workflow_worker` (lines 665-671):
on `_RegistrationError` it prints to stderr and exits with status 1; the
result is the exit status, `none` meaning the worker proceeds to its poll
loop. -/
def worker_registration_exit (reg : Except String Unit) : Option Nat :=
  match reg with
  | .error _ => some 1
  | .ok _ => none

/-- Claim C8: on the already-exists path the engine runs the compatibility
check; the check succeeds exactly when the fetch succeeded and every
compared default field (task list, decision duration, workflow duration,
child policy) equals the configured value — i.e. a registration fault is
raised iff some field mismatches or a transport error occurs — and on any
registration fault the worker exits with status 1 (nonzero), while
otherwise it proceeds. -/
theorem registration_fault_iff (cv : CvtValues)
    (fetch : Except Unit RemoteWorkflowConfig) :
    register_remote .typeAlreadyExists cv fetch = check_compatible cv fetch ∧
    (check_compatible cv fetch = .ok () ↔
      fetch = .ok ⟨cv.d_t_l, cv.d_d_d, cv.d_w_d, cv.d_c_p⟩) ∧
    (∀ e : String, worker_registration_exit (.error e) = some 1) ∧
    worker_registration_exit (.ok ()) = none ∧
    (1 : Nat) ≠ 0 := by
  refine ⟨rfl, ?_, fun e => rfl, rfl, by omega⟩
  cases fetch with
  | error e => simp [check_compatible]
  | ok w =>
    cases w with
    | mk tl dd wd cp =>
      simp only [check_compatible]
      split_ifs with h1 h2 h3 h4 <;> simp_all

/-! ## Terminal decisions: fail and finish (claim C9) -/

/-- What claim C9 states about an open context: `fail` and `finish` each
replace the whole batch by their single terminal decision, submit exactly
that batch, mark the context closed, and respect the byte caps. -/
def FailFinishSpec (st : SWFCtx) (reason result : String) : Prop :=
  (ctx_fail st reason).2 =
    some [.failWorkflowExecution (py_slice_front _REASON_SIZE reason)] ∧
  (ctx_fail st reason).1.decisions =
    [.failWorkflowExecution (py_slice_front _REASON_SIZE reason)] ∧
  (ctx_fail st reason).1.closed = true ∧
  (py_slice_front _REASON_SIZE reason).length ≤ 256 ∧
  (ctx_finish st result).2 =
    some [.completeWorkflowExecution (py_slice_front _RESULT_SIZE result)] ∧
  (ctx_finish st result).1.decisions =
    [.completeWorkflowExecution (py_slice_front _RESULT_SIZE result)] ∧
  (ctx_finish st result).1.closed = true ∧
  (py_slice_front _RESULT_SIZE result).length ≤ 32768

theorem py_slice_front_length_le (n : Nat) (s : String) :
    (py_slice_front n s).length ≤ n := by
  show (s.data.take n).length ≤ n
  rw [List.length_take]
  exact min_le_left _ _

/-- Claim C9: for every open context (closed flag unset) and all reason and
result strings, `fail` submits exactly one `fail_workflow_execution`
decision whose reason is truncated to at most 256 bytes, `finish` submits
exactly one `complete_workflow_execution` decision truncated to at most
32768 bytes, the terminal decision replaces any accumulated schedule
decisions, and the context is marked closed. -/
theorem fail_finish_terminal (st : SWFCtx) (reason result : String)
    (h : st.closed = false) :
    FailFinishSpec st reason result := by
  refine ⟨?_, ?_, ?_, py_slice_front_length_le _ _, ?_, ?_, ?_,
    py_slice_front_length_le _ _⟩ <;>
    simp [ctx_fail, ctx_finish, ctx_flush, h]

/-- A context holding two accumulated schedule decisions. -/
def c9_ctx : SWFCtx :=
  ⟨["1"], [], [], [], [], none, none, none, none, none,
    [.startTimer "0:t" 5,
     .scheduleActivityTask "1" "A" "1" "[[7], {}]" none none none none none],
    false⟩

/-- Witness for C9: the spec holds on a concrete open context with a
non-empty accumulated batch. -/
theorem fail_finish_terminal_witness : FailFinishSpec c9_ctx "boom" "42" :=
  fail_finish_terminal c9_ctx "boom" "42" rfl

/-! ## History paging and the pagination-fault restart (claim C4) -/

/-- The retry loop of `poll_response_page` (lines 414-426): `i` is the index
of the next transport call, `fuel` the remaining loop iterations of
`for _ in range(7)`; the for-else raises `_PaginationError` when the fuel
runs out. `responses` gives each successive transport call's outcome
(`none` = `SWFResponseError`). -/
def pollPageGo (responses : Nat → Option String) : Nat → Nat → Except Unit String
  | _, 0 => .error ()
  | i, fuel + 1 =>
    match responses i with
    | some page => .ok page
    | none => pollPageGo responses (i + 1) fuel

/-- `poll_response_page`: at most 7 transport attempts. -/
def poll_response_page (responses : Nat → Option String) : Except Unit String :=
  pollPageGo responses 0 7

theorem pollPageGo_error_iff (responses : Nat → Option String) :
    ∀ (fuel i : Nat),
    pollPageGo responses i fuel = .error () ↔
      ∀ j, j < fuel → responses (i + j) = none := by
  intro fuel
  induction fuel with
  | zero =>
    intro i
    simp [pollPageGo]
  | succ m ih =>
    intro i
    simp only [pollPageGo]
    cases hr : responses i with
    | some page =>
      simp only []
      constructor
      · intro h
        exact absurd h (by simp)
      · intro h
        have h0 := h 0 (Nat.succ_pos m)
        rw [Nat.add_zero] at h0
        exact absurd (hr.symm.trans h0) (by simp)
    | none =>
      simp only []
      rw [ih (i + 1)]
      constructor
      · intro h j hj
        cases j with
        | zero =>
          rw [Nat.add_zero]
          exact hr
        | succ jj =>
          have hjj := h jj (by omega)
          rw [show i + (jj + 1) = i + 1 + jj by omega]
          exact hjj
      · intro h j hj
        have hjj := h (j + 1) (by omega)
        rw [show i + 1 + j = i + (j + 1) by omega]
        exact hjj

/-- `poll_response_page` raises the pagination fault exactly when all 7
transport attempts fail. -/
theorem poll_response_page_error_iff (responses : Nat → Option String) :
    poll_response_page responses = .error () ↔
      ∀ j, j < 7 → responses j = none := by
  rw [poll_response_page, pollPageGo_error_iff]
  simp

/-- The arguments of `poll_next_decision` (line 377). -/
structure PollArgs : Type where
  domain : String
  task_list : String
  identity : Option String
  deriving DecidableEq

/-- The result of one round of `poll_next_decision`. -/
inductive PollOutcome : Type
  | done (st : ParseState)
  | restart (args : PollArgs)
  | failed (e : ParseErr)
  deriving DecidableEq

/-- One round of `poll_next_decision` (lines 377-402): `history` is the
outcome of draining the event pages (`.error ()` when `_PaginationError`
escapes `parse_events`'s lazy iteration).  On a pagination fault the source
recurses with `poll_next_decision(layer1, task_list, domain, identity)` —
the domain and task-list arguments interchanged (line 399). -/
def poll_next_decision_once (args : PollArgs)
    (history : Except Unit (List SWFEvent)) : PollOutcome :=
  match history with
  | .error _ => .restart ⟨args.task_list, args.domain, args.identity⟩
  | .ok evs =>
    match parse_events evs with
    | .ok st => .done st
    | .error e => .failed e

/-- Claim C4: evaluation of the pagination retry bound and of the restart
after a pagination fault.  Seven failing transport attempts raise the
fault, a success on the seventh attempt does not, an eighth attempt is
never consulted; and on the fault `poll_next_decision` restarts with the
domain and task list swapped, not with the ones it started with. -/
theorem pagination_retry_and_restart :
    poll_response_page (fun _ => none) = .error () ∧
    poll_response_page (fun i => if i = 6 then some "page2" else none) =
      .ok "page2" ∧
    poll_response_page (fun i => if i = 7 then some "page2" else none) =
      .error () ∧
    poll_next_decision_once ⟨"prod-domain", "decider-tl", some "w1"⟩
        (.error ()) =
      .restart ⟨"decider-tl", "prod-domain", some "w1"⟩ ∧
    ("decider-tl" : String) ≠ "prod-domain" := by
  refine ⟨rfl, rfl, rfl, rfl, by decide⟩

/-! ## Worker identity truncation (claim C10) -/

/-- `_default_identity` (lines 713-715): `"<fqdn>-<pid>"` keeping the
trailing `_IDENTITY_SIZE` bytes ("the most important part"). -/
def _default_identity (fqdn pid : String) : String :=
  py_slice_last _IDENTITY_SIZE (fqdn ++ "-" ++ pid)

/-- The identity computation of `start_swf_workflow_worker`
(lines 658-659): a caller-supplied identity, or else the generated default,
then truncated to the leading `_IDENTITY_SIZE` bytes. -/
def worker_identity (identity : Option String) (fqdn pid : String) : String :=
  py_slice_front _IDENTITY_SIZE
    (match identity with
     | some i => i
     | none => _default_identity fqdn pid)

theorem py_slice_last_length_le (n : Nat) (s : String) :
    (py_slice_last n s).data.length ≤ n := by
  show (s.data.drop (s.data.length - n)).length ≤ n
  rw [List.length_drop]
  omega

theorem py_slice_front_of_length_le {n : Nat} {s : String}
    (h : s.data.length ≤ n) : py_slice_front n s = s := by
  cases s with
  | mk l =>
    show String.mk (l.take n) = String.mk l
    rw [List.take_of_length_le h]

/-- Claim C10: a caller-supplied identity longer than 256 bytes keeps its
first 256 bytes, while the generated default identity `"<fqdn>-<pid>"`
keeps its last 256 bytes when longer. -/
theorem worker_identity_truncation (s fqdn pid : String) :
    (256 < s.length → worker_identity (some s) fqdn pid =
      py_slice_front 256 s) ∧
    (256 < (fqdn ++ "-" ++ pid).length → worker_identity none fqdn pid =
      py_slice_last 256 (fqdn ++ "-" ++ pid)) := by
  constructor
  · intro _
    rfl
  · intro _
    exact py_slice_front_of_length_le (py_slice_last_length_le 256 _)

set_option maxRecDepth 4000 in
/-- Witness for C10: a 257-byte supplied identity keeps its first 256
bytes; a default identity built from a 300-byte fqdn keeps its last 256
bytes. -/
theorem worker_identity_truncation_witness :
    worker_identity (some (String.mk (List.replicate 257 'a'))) "host" "1" =
      py_slice_front 256 (String.mk (List.replicate 257 'a')) ∧
    worker_identity none (String.mk (List.replicate 300 'h')) "42" =
      py_slice_last 256 (String.mk (List.replicate 300 'h') ++ "-" ++ "42") := by
  constructor
  · exact (worker_identity_truncation (String.mk (List.replicate 257 'a'))
      "host" "1").1 (by decide)
  · exact (worker_identity_truncation "x" (String.mk (List.replicate 300 'h'))
      "42").2 (by decide)
